import Mathlib

/-!
Verification of the EV trip-time model in `src/main.py` (repository
`dreisicht/bev_thinkings`).  The source computes, for an electric car and a
trip, the constant-speed energy consumption and the total trip duration
(driving plus charging), and sweeps the integer speeds 45..210 km/h.

All arithmetic is embedded over `ℚ` (the source uses Python floats; the
claims are about its mathematical formulas, which are exact rational
expressions of the inputs).  Python division raises `ZeroDivisionError` on a
zero denominator; an `Except`-valued layer (`get_consumptionE`,
`get_trip_durationE`) mirrors this raising behaviour, while the plain
functions use Lean's total division (`x / 0 = 0`) and are related to the
raising layer on the non-zero-denominator domain.
-/

/-- Air density, `RO = 1.204` in the source. -/
def RO : ℚ := 1.204

/-- Gravitational acceleration, `G = 9.81` in the source. -/
def G : ℚ := 9.81

/-- Car properties, mirroring the `Car` dataclass of the source.  The source
annotates `weight`, `p_additional` and `charging_power` as `int`; all fields
participate in float arithmetic, embedded here uniformly as `ℚ`. -/
structure Car where
  weight : ℚ
  area : ℚ
  eta : ℚ
  capacity : ℚ
  p_additional : ℚ
  cw : ℚ
  cr : ℚ
  charging_power : ℚ
  deriving Repr, DecidableEq

/-- Trip properties, mirroring the `Trip` dataclass of the source. -/
structure Trip where
  distance_km : ℚ
  charging_penalty_time_h : ℚ
  soc_start : ℚ
  soc_end : ℚ
  deriving Repr, DecidableEq

/-- Source: `def kmh_to_ms(v): return v / 3.6`. -/
def kmh_to_ms (v : ℚ) : ℚ := v / 3.6

/-- Source: `get_consumption(car, v_ms)`, the constant speed consumption in
kWh/100km. -/
def get_consumption (car : Car) (v_ms : ℚ) : ℚ :=
  let p_roll := car.cr * G * car.weight * v_ms
  let f_air := (RO / 2) * v_ms * v_ms * car.cw * car.area
  let p_air := f_air * v_ms
  let duration_100km_h := ((1 / v_ms) * 1000 * 100) / 3600
  let driving_energy_wh := ((p_roll + p_air) * duration_100km_h) * (1 / car.eta)
  let total_energy_wh := driving_energy_wh + (car.p_additional * duration_100km_h)
  total_energy_wh / 1000

/-- Local binding `driving_time_h = trip.distance_km / v_kmh` of
`_get_trip_duration`. -/
def driving_time_h (trip : Trip) (v_kmh : ℚ) : ℚ :=
  trip.distance_km / v_kmh

/-- Local binding `energy_needed_kwh` of `_get_trip_duration`. -/
def energy_needed_kwh (car : Car) (trip : Trip) (v_kmh : ℚ) : ℚ :=
  (get_consumption car (kmh_to_ms v_kmh) * trip.distance_km) / 100

/-- Local binding `energy_start_kwh = trip.soc_start * car.capacity`. -/
def energy_start_kwh (car : Car) (trip : Trip) : ℚ :=
  trip.soc_start * car.capacity

/-- Local binding `energy_end_kwh = trip.soc_end * car.capacity`. -/
def energy_end_kwh (car : Car) (trip : Trip) : ℚ :=
  trip.soc_end * car.capacity

/-- Local binding
`energy_to_charge_kwh = max(0, energy_needed_kwh + energy_end_kwh - energy_start_kwh)`. -/
def energy_to_charge_kwh (car : Car) (trip : Trip) (v_kmh : ℚ) : ℚ :=
  max 0 (energy_needed_kwh car trip v_kmh + energy_end_kwh car trip - energy_start_kwh car trip)

/-- Local binding `num_times_charging = ceil(energy_to_charge_kwh / car.capacity)`
(`math.ceil` on a float returns an `int`). -/
def num_times_charging (car : Car) (trip : Trip) (v_kmh : ℚ) : ℤ :=
  ⌈energy_to_charge_kwh car trip v_kmh / car.capacity⌉

/-- Local binding
`penalty = trip.charging_penalty_time_h * num_times_charging if energy_to_charge_kwh > 0 else 0`. -/
def penalty (car : Car) (trip : Trip) (v_kmh : ℚ) : ℚ :=
  if energy_to_charge_kwh car trip v_kmh > 0 then
    trip.charging_penalty_time_h * (num_times_charging car trip v_kmh : ℚ)
  else 0

/-- Local binding
`charging_time_h = (energy_to_charge_kwh / car.charging_power) + penalty`. -/
def charging_time_h (car : Car) (trip : Trip) (v_kmh : ℚ) : ℚ :=
  energy_to_charge_kwh car trip v_kmh / car.charging_power + penalty car trip v_kmh

/-- Source: `_get_trip_duration(car, trip, v_kmh)`, returning
`driving_time_h + charging_time_h`.  (Lean identifiers cannot start with an
underscore; the source name is `_get_trip_duration`.) -/
def get_trip_duration (car : Car) (trip : Trip) (v_kmh : ℚ) : ℚ :=
  driving_time_h trip v_kmh + charging_time_h car trip v_kmh

/-- One row of the data frame built by `plot_speed_vs_duration`:
columns `speed`, `time`, `consumption`. -/
structure SpeedSample where
  speed : ℚ
  time : ℚ
  consumption : ℚ
  deriving Repr, DecidableEq

/-- Source: the computation core of `plot_speed_vs_duration(car, distance_km,
charging_penalty_time_h, soc_start, soc_end)`.  The source builds the `Trip`,
then for `v_kmh in range(45, 211)` appends the speed, the trip duration and
the consumption to three parallel lists that become the data-frame columns
`speed`, `time`, `consumption`.  Rendering and file export of the resulting
figure are presentation concerns outside the computation core and are not
embedded. -/
def plot_speed_vs_duration (car : Car) (distance_km : ℚ)
    (charging_penalty_time_h : ℚ) (soc_start : ℚ) (soc_end : ℚ) :
    List SpeedSample :=
  let trip : Trip :=
    { distance_km := distance_km
      charging_penalty_time_h := charging_penalty_time_h
      soc_start := soc_start
      soc_end := soc_end }
  (List.range' 45 166).map fun v_kmh : ℕ =>
    { speed := (v_kmh : ℚ)
      time := get_trip_duration car trip (v_kmh : ℚ)
      consumption := get_consumption car (kmh_to_ms (v_kmh : ℚ)) }

/-- Source: the `cla250` car constructed in the `__main__` block. -/
def cla250 : Car :=
  { weight := 2055
    area := 2.28
    eta := 0.93
    capacity := 85
    p_additional := 1300
    cw := 0.21
    cr := 0.006
    charging_power := 220 }

/-- Source: the `zoe` car constructed in the `__main__` block. -/
def zoe : Car :=
  { weight := 1577
    area := 2.27
    eta := 0.85
    capacity := 41
    p_additional := 1300
    cw := 0.33
    cr := 0.012
    charging_power := 22 }

/-- The trip passed to `plot_speed_vs_duration` in the `__main__` block:
distance 1000 km, charging penalty 0.2 h, state of charge from 1 to 0.05. -/
def mainTrip : Trip :=
  { distance_km := 1000
    charging_penalty_time_h := 0.2
    soc_start := 1
    soc_end := 0.05 }

/-- The only error Python can raise in the two numeric functions: a division
whose denominator is zero raises `ZeroDivisionError`.  The source defines no
other error kind (in particular no `InvalidInput`) and contains no validation
code. -/
inductive PyErr where
  | zeroDivision
  deriving Repr, DecidableEq

/-- Python division: raises `ZeroDivisionError` when the denominator is zero,
otherwise returns the exact quotient. -/
def pyDiv (a b : ℚ) : Except PyErr ℚ :=
  if b = 0 then .error .zeroDivision else .ok (a / b)

/-- Raising-semantics version of `get_consumption`: every division of the
source whose denominator is an input (by `v_ms` and by `car.eta`) goes
through `pyDiv`; divisions by the non-zero literals 2, 3600 and 1000 cannot
raise.  The divisions appear in source evaluation order. -/
def get_consumptionE (car : Car) (v_ms : ℚ) : Except PyErr ℚ :=
  let p_roll := car.cr * G * car.weight * v_ms
  let f_air := (RO / 2) * v_ms * v_ms * car.cw * car.area
  let p_air := f_air * v_ms
  match pyDiv 1 v_ms with
  | .error e => .error e
  | .ok inv_v =>
    let duration_100km_h := (inv_v * 1000 * 100) / 3600
    match pyDiv 1 car.eta with
    | .error e => .error e
    | .ok inv_eta =>
      let driving_energy_wh := ((p_roll + p_air) * duration_100km_h) * inv_eta
      let total_energy_wh := driving_energy_wh + (car.p_additional * duration_100km_h)
      .ok (total_energy_wh / 1000)

/-- Raising-semantics version of `_get_trip_duration`, dividing through
`pyDiv` in source evaluation order: by `v_kmh`, then the divisions inside
`get_consumption`, then by `car.capacity` (inside the ceiling) and by
`car.charging_power`.  The division by the literal 100 cannot raise. -/
def get_trip_durationE (car : Car) (trip : Trip) (v_kmh : ℚ) : Except PyErr ℚ :=
  match pyDiv trip.distance_km v_kmh with
  | .error e => .error e
  | .ok driving_time =>
    match get_consumptionE car (kmh_to_ms v_kmh) with
    | .error e => .error e
    | .ok cons =>
      let energy_needed := cons * trip.distance_km / 100
      let energy_start := trip.soc_start * car.capacity
      let energy_end := trip.soc_end * car.capacity
      let energy_to_charge := max 0 (energy_needed + energy_end - energy_start)
      match pyDiv energy_to_charge car.capacity with
      | .error e => .error e
      | .ok stops_arg =>
        let num : ℤ := ⌈stops_arg⌉
        let pen := if energy_to_charge > 0 then
            trip.charging_penalty_time_h * (num : ℚ)
          else 0
        match pyDiv energy_to_charge car.charging_power with
        | .error e => .error e
        | .ok transfer => .ok (driving_time + (transfer + pen))

/-- Constant term of the consumption curve: the rolling-resistance
contribution per 100 km, `cr * g * weight * 100000 / 3600 / eta / 1000`,
independent of speed. -/
def consA (car : Car) : ℚ := car.cr * G * car.weight * 100000 / 3600 / car.eta / 1000

/-- Quadratic coefficient of the consumption curve: the aerodynamic
contribution per 100 km divided by `v ^ 2`. -/
def consB (car : Car) : ℚ := RO / 2 * car.cw * car.area * 100000 / 3600 / car.eta / 1000

/-- Inverse-speed coefficient of the consumption curve: the auxiliary-power
contribution per 100 km multiplied by `v`. -/
def consC (car : Car) : ℚ := car.p_additional * 100000 / 3600 / 1000

/-- Claim C2: for every vehicle and every speed `v_ms > 0`, `get_consumption`
returns `((cr*g*weight*v + 0.5*airDensity*v^2*cw*area*v) * durationHours / eta
+ auxiliaryPower * durationHours) / 1000` with
`durationHours = (100000 / v) / 3600`: the kWh needed for 100 km at constant
speed `v_ms`, auxiliary consumption included. -/
theorem consumption_formula (car : Car) (v_ms : ℚ) (hv : 0 < v_ms) :
    get_consumption car v_ms =
      ((car.cr * G * car.weight * v_ms
          + 0.5 * RO * v_ms ^ 2 * car.cw * car.area * v_ms)
          * ((100000 / v_ms) / 3600) / car.eta
        + car.p_additional * ((100000 / v_ms) / 3600)) / 1000 := by
  unfold get_consumption
  ring

/-- Witness for `consumption_formula` at the cla250 and 10 m/s. -/
theorem consumption_formula_witness :
    (0 : ℚ) < 10
    ∧ get_consumption cla250 10 =
        ((cla250.cr * G * cla250.weight * 10
            + 0.5 * RO * 10 ^ 2 * cla250.cw * cla250.area * 10)
            * ((100000 / 10) / 3600) / cla250.eta
          + cla250.p_additional * ((100000 / 10) / 3600)) / 1000 :=
  ⟨by norm_num, consumption_formula cla250 10 (by norm_num)⟩

/-- Claim C1: for every vehicle, trip and speed `v_kmh > 0` (with positive
battery capacity), `_get_trip_duration` returns driving time plus charging
time, where the energy to charge is clamped at 0, the number of charging
stops is the ceiling of the energy to charge over the battery capacity, and
the per-stop penalty applies exactly when the energy to charge is positive;
when the energy to charge equals 1.5 times the capacity the number of stops
is 2. -/
theorem trip_duration_formula (car : Car) (trip : Trip) (v_kmh : ℚ)
    (hv : 0 < v_kmh) (hcap : 0 < car.capacity) :
    (get_trip_duration car trip v_kmh =
        trip.distance_km / v_kmh
          + (energy_to_charge_kwh car trip v_kmh / car.charging_power
              + (if energy_to_charge_kwh car trip v_kmh > 0 then
                  trip.charging_penalty_time_h * (num_times_charging car trip v_kmh : ℚ)
                else 0)))
    ∧ energy_to_charge_kwh car trip v_kmh =
        max 0 (get_consumption car (v_kmh / 3.6) * trip.distance_km / 100
          + trip.soc_end * car.capacity - trip.soc_start * car.capacity)
    ∧ num_times_charging car trip v_kmh =
        ⌈energy_to_charge_kwh car trip v_kmh / car.capacity⌉
    ∧ (energy_to_charge_kwh car trip v_kmh = 1.5 * car.capacity →
        num_times_charging car trip v_kmh = 2) := by
  refine ⟨rfl, rfl, rfl, ?_⟩
  intro h
  unfold num_times_charging
  rw [h, mul_div_assoc, div_self hcap.ne', mul_one]
  rw [Int.ceil_eq_iff] <;> norm_num

/-- Witness for `trip_duration_formula` at the cla250, the main trip and
120 km/h. -/
theorem trip_duration_formula_witness :
    (0 : ℚ) < 120
    ∧ (0 : ℚ) < cla250.capacity
    ∧ ((get_trip_duration cla250 mainTrip 120 =
          mainTrip.distance_km / 120
            + (energy_to_charge_kwh cla250 mainTrip 120 / cla250.charging_power
                + (if energy_to_charge_kwh cla250 mainTrip 120 > 0 then
                    mainTrip.charging_penalty_time_h
                      * (num_times_charging cla250 mainTrip 120 : ℚ)
                  else 0)))
      ∧ energy_to_charge_kwh cla250 mainTrip 120 =
          max 0 (get_consumption cla250 (120 / 3.6) * mainTrip.distance_km / 100
            + mainTrip.soc_end * cla250.capacity - mainTrip.soc_start * cla250.capacity)
      ∧ num_times_charging cla250 mainTrip 120 =
          ⌈energy_to_charge_kwh cla250 mainTrip 120 / cla250.capacity⌉
      ∧ (energy_to_charge_kwh cla250 mainTrip 120 = 1.5 * cla250.capacity →
          num_times_charging cla250 mainTrip 120 = 2)) :=
  ⟨by norm_num, by norm_num [cla250],
    trip_duration_formula cla250 mainTrip 120 (by norm_num) (by norm_num [cla250])⟩

/-- Claim C3, counterexample: on the default sweep range the consumption is
not strictly increasing in speed.  For the cla250, the sample at 45 km/h has
a strictly larger consumption than the sample at 46 km/h (the auxiliary-power
term, inversely proportional to speed, still dominates there), refuting
`consumption(v1) < consumption(v2)` for the pair (45, 46) of the default
range. -/
theorem consumption_not_monotone_on_default_range :
    kmh_to_ms 45 < kmh_to_ms 46
    ∧ get_consumption cla250 (kmh_to_ms 46) < get_consumption cla250 (kmh_to_ms 45) := by
  constructor
  · norm_num [kmh_to_ms]
  · norm_num [get_consumption, kmh_to_ms, RO, G, cla250]

/-- Claim C3, amended: consumption is strictly increasing in speed on every
pair `0 < v1 < v2` (m/s) where the aerodynamic term dominates the
auxiliary-power term, namely when
`eta * auxiliaryPower < airDensity/2 * cw * area * (v1+v2) * v1 * v2`; this
holds at highway speeds but fails at the low end of the default range. -/
theorem consumption_strictMono_of_drag_dominates (car : Car) (v1 v2 : ℚ)
    (h1 : 0 < v1) (h12 : v1 < v2) (heta : 0 < car.eta)
    (hdom : car.eta * car.p_additional
        < RO / 2 * car.cw * car.area * (v1 + v2) * v1 * v2) :
    get_consumption car v1 < get_consumption car v2 := by
  have h2 : 0 < v2 := h1.trans h12
  have hv1 : v1 ≠ 0 := h1.ne'
  have hv2 : v2 ≠ 0 := h2.ne'
  have hetan : car.eta ≠ 0 := heta.ne'
  have key : get_consumption car v2 - get_consumption car v1 =
      (v2 - v1)
        * (RO / 2 * car.cw * car.area * (v1 + v2) * v1 * v2
            - car.eta * car.p_additional)
        / (36 * car.eta * v1 * v2) := by
    unfold get_consumption
    field_simp
    ring
  have hpos : 0 < (v2 - v1)
      * (RO / 2 * car.cw * car.area * (v1 + v2) * v1 * v2
          - car.eta * car.p_additional)
      / (36 * car.eta * v1 * v2) := by
    apply div_pos
    · exact mul_pos (by linarith) (by linarith)
    · exact mul_pos (mul_pos (mul_pos (by norm_num) heta) h1) h2
  rw [← key] at hpos
  linarith

/-- Witness for `consumption_strictMono_of_drag_dominates` at the cla250 and
the pair 30 m/s, 40 m/s. -/
theorem consumption_strictMono_witness :
    (0 : ℚ) < 30
    ∧ (30 : ℚ) < 40
    ∧ (0 : ℚ) < cla250.eta
    ∧ cla250.eta * cla250.p_additional
        < RO / 2 * cla250.cw * cla250.area * (30 + 40) * 30 * 40
    ∧ get_consumption cla250 30 < get_consumption cla250 40 :=
  ⟨by norm_num, by norm_num, by norm_num [cla250], by norm_num [cla250, RO],
    consumption_strictMono_of_drag_dominates cla250 30 40 (by norm_num)
      (by norm_num) (by norm_num [cla250]) (by norm_num [cla250, RO])⟩

/-- Claim C4, counterexample: the source contains no input validation.  A
physically invalid trip (negative distance) is not rejected: the computation
proceeds and returns a numeric result, and consumption at speed 0 reaches the
division and raises `ZeroDivisionError`; no `InvalidInput` error exists in
the source. -/
theorem no_invalid_input_error_counterexample :
    get_trip_durationE cla250
        { distance_km := -1000, charging_penalty_time_h := 0.2,
          soc_start := 1, soc_end := 0.05 } 120
      = .ok (get_trip_duration cla250
          { distance_km := -1000, charging_penalty_time_h := 0.2,
            soc_start := 1, soc_end := 0.05 } 120)
    ∧ get_consumptionE cla250 0 = .error .zeroDivision := by
  constructor
  · norm_num [get_trip_durationE, get_consumptionE, pyDiv, get_trip_duration,
      driving_time_h, charging_time_h, penalty, num_times_charging,
      energy_to_charge_kwh, energy_needed_kwh, energy_start_kwh, energy_end_kwh,
      get_consumption, kmh_to_ms, RO, G, cla250]
  · norm_num [get_consumptionE, pyDiv]

/-- Claim C4, amended: the source performs no input validation and has no
`InvalidInput` error.  Whenever every input denominator is non-zero (speed,
drivetrain efficiency, battery capacity, charging power), the operations
compute a result even on physically invalid inputs (negative distance, state
of charge outside [0,1], negative parameters); consumption at speed 0 fails
by reaching the division, raising `ZeroDivisionError`. -/
theorem no_validation_computes_on_invalid_inputs (car : Car) (trip : Trip)
    (v_kmh : ℚ) (hv : v_kmh ≠ 0) (heta : car.eta ≠ 0) (hcap : car.capacity ≠ 0)
    (hpow : car.charging_power ≠ 0) :
    get_trip_durationE car trip v_kmh = .ok (get_trip_duration car trip v_kmh)
    ∧ get_consumptionE car 0 = .error .zeroDivision := by
  have hms : kmh_to_ms v_kmh ≠ 0 := by
    unfold kmh_to_ms
    exact div_ne_zero hv (by norm_num)
  constructor
  · simp [get_trip_durationE, get_consumptionE, pyDiv, hv, hms, heta, hcap, hpow,
      get_trip_duration, driving_time_h, charging_time_h, penalty,
      num_times_charging, energy_to_charge_kwh, energy_needed_kwh,
      energy_start_kwh, energy_end_kwh, get_consumption]
  · simp [get_consumptionE, pyDiv]

/-- Witness for `no_validation_computes_on_invalid_inputs` at the cla250, a
trip with an invalid state of charge (2 > 1) and 120 km/h. -/
theorem no_validation_witness :
    (120 : ℚ) ≠ 0
    ∧ cla250.eta ≠ 0
    ∧ cla250.capacity ≠ 0
    ∧ cla250.charging_power ≠ 0
    ∧ (get_trip_durationE cla250
          { distance_km := 1000, charging_penalty_time_h := 0.2,
            soc_start := 2, soc_end := 0.05 } 120
        = .ok (get_trip_duration cla250
            { distance_km := 1000, charging_penalty_time_h := 0.2,
              soc_start := 2, soc_end := 0.05 } 120)
      ∧ get_consumptionE cla250 0 = .error .zeroDivision) :=
  ⟨by norm_num, by norm_num [cla250], by norm_num [cla250], by norm_num [cla250],
    no_validation_computes_on_invalid_inputs cla250
      { distance_km := 1000, charging_penalty_time_h := 0.2,
        soc_start := 2, soc_end := 0.05 } 120
      (by norm_num) (by norm_num [cla250]) (by norm_num [cla250])
      (by norm_num [cla250])⟩

/-- Claim C5: the sweep produces exactly one sample per integer speed in the
closed range 45..210 km/h (166 samples), in strictly ascending speed order,
the sample at index `i` carrying speed `45 + i`, the trip duration of the
model at that speed and the consumption of the model at that speed. -/
theorem sweep_contract (car : Car) (d p s e : ℚ) (i : ℕ) (hi : i < 166) :
    (plot_speed_vs_duration car d p s e).length = 166
    ∧ List.Chain' (fun a b => a.speed < b.speed) (plot_speed_vs_duration car d p s e)
    ∧ (plot_speed_vs_duration car d p s e)[i]? =
        some { speed := (45 + i : ℚ)
               time := get_trip_duration car ⟨d, p, s, e⟩ ((45 : ℚ) + i)
               consumption := get_consumption car (kmh_to_ms ((45 : ℚ) + i)) } := by
  have hcast : ((45 + 1 * i : ℕ) : ℚ) = 45 + (i : ℚ) := by push_cast; ring
  refine ⟨?_, ?_, ?_⟩
  · simp only [plot_speed_vs_duration, List.length_map, List.length_range']
  · unfold plot_speed_vs_duration
    rw [List.chain'_map]
    apply List.Pairwise.chain'
    refine List.Pairwise.imp ?_ (List.pairwise_lt_range' 45 166)
    intro a b hab
    show ((a : ℕ) : ℚ) < ((b : ℕ) : ℚ)
    exact_mod_cast hab
  · simp [plot_speed_vs_duration, List.getElem?_range' _ _ hi, hcast]

/-- Witness for `sweep_contract` at the cla250, the main trip parameters and
index 0. -/
theorem sweep_contract_witness :
    (0 : ℕ) < 166
    ∧ ((plot_speed_vs_duration cla250 1000 0.2 1 0.05).length = 166
      ∧ List.Chain' (fun a b => a.speed < b.speed)
          (plot_speed_vs_duration cla250 1000 0.2 1 0.05)
      ∧ (plot_speed_vs_duration cla250 1000 0.2 1 0.05)[(0 : ℕ)]? =
          some { speed := (45 + (0 : ℕ) : ℚ)
                 time := get_trip_duration cla250 ⟨1000, 0.2, 1, 0.05⟩ ((45 : ℚ) + (0 : ℕ))
                 consumption := get_consumption cla250 (kmh_to_ms ((45 : ℚ) + (0 : ℕ))) }) :=
  ⟨by norm_num, sweep_contract cla250 1000 0.2 1 0.05 0 (by norm_num)⟩

/-- Claim C6: if the energy stored at departure covers the energy needed plus
the required arrival reserve, then the number of charging stops is 0, the
penalty is 0, the charging time is 0, and the trip duration is exactly the
driving time. -/
theorem zero_charging_stop_case (car : Car) (trip : Trip) (v_kmh : ℚ)
    (hv : 0 < v_kmh)
    (h : energy_needed_kwh car trip v_kmh + trip.soc_end * car.capacity
        ≤ trip.soc_start * car.capacity) :
    num_times_charging car trip v_kmh = 0
    ∧ penalty car trip v_kmh = 0
    ∧ charging_time_h car trip v_kmh = 0
    ∧ get_trip_duration car trip v_kmh = trip.distance_km / v_kmh := by
  have he : energy_to_charge_kwh car trip v_kmh = 0 := by
    unfold energy_to_charge_kwh energy_start_kwh energy_end_kwh
    rw [max_eq_left]
    linarith
  have hpen : penalty car trip v_kmh = 0 := by
    unfold penalty
    rw [he]
    simp
  refine ⟨?_, hpen, ?_, ?_⟩
  · unfold num_times_charging
    rw [he]
    simp
  · unfold charging_time_h
    rw [he, hpen]
    simp
  · unfold get_trip_duration driving_time_h charging_time_h
    rw [he, hpen]
    simp

/-- Witness for `zero_charging_stop_case` at the cla250, a 100 km trip and
100 km/h: a full battery covers the roughly 11.6 kWh needed plus the 4.25 kWh
reserve. -/
theorem zero_charging_stop_case_witness :
    (0 : ℚ) < 100
    ∧ energy_needed_kwh cla250 ⟨100, 0.2, 1, 0.05⟩ 100
        + (⟨100, 0.2, 1, 0.05⟩ : Trip).soc_end * cla250.capacity
        ≤ (⟨100, 0.2, 1, 0.05⟩ : Trip).soc_start * cla250.capacity
    ∧ (num_times_charging cla250 ⟨100, 0.2, 1, 0.05⟩ 100 = 0
      ∧ penalty cla250 ⟨100, 0.2, 1, 0.05⟩ 100 = 0
      ∧ charging_time_h cla250 ⟨100, 0.2, 1, 0.05⟩ 100 = 0
      ∧ get_trip_duration cla250 ⟨100, 0.2, 1, 0.05⟩ 100
          = (⟨100, 0.2, 1, 0.05⟩ : Trip).distance_km / 100) :=
  ⟨by norm_num,
    by norm_num [energy_needed_kwh, get_consumption, kmh_to_ms, RO, G, cla250],
    zero_charging_stop_case cla250 ⟨100, 0.2, 1, 0.05⟩ 100 (by norm_num)
      (by norm_num [energy_needed_kwh, get_consumption, kmh_to_ms, RO, G, cla250])⟩

/-- Claim C7, counterexample: in the concrete cla250 scenario at 120 km/h the
computed consumption is strictly below 15 kWh/100km (it is 4774913/334800,
about 14.26), so it does not lie in the claimed 15 to 16 kWh/100km band. -/
theorem scenario_consumption_below_claimed_band :
    get_consumption cla250 (kmh_to_ms 120) < 15 := by
  norm_num [get_consumption, kmh_to_ms, RO, G, cla250]

/-- Claim C7, amended: in the concrete cla250 scenario (main trip: 1000 km,
penalty 0.2 h, state of charge 1.0 to 0.05) at 120 km/h the computed
consumption lies in 14 to 15 kWh/100km (about 14.26), and the total trip
duration strictly exceeds the pure driving time 1000/120 h: charging adds a
non-zero overhead. -/
theorem scenario_values :
    14 < get_consumption cla250 (kmh_to_ms 120)
    ∧ get_consumption cla250 (kmh_to_ms 120) < 15
    ∧ 1000 / 120 < get_trip_duration cla250 mainTrip 120 := by
  have hnum : num_times_charging cla250 mainTrip 120 = 1 := by
    unfold num_times_charging
    rw [Int.ceil_eq_iff] <;>
      norm_num [energy_to_charge_kwh, energy_needed_kwh, energy_start_kwh,
        energy_end_kwh, get_consumption, kmh_to_ms, RO, G, cla250, mainTrip]
  have he : energy_to_charge_kwh cla250 mainTrip 120 = 2071403 / 33480 := by
    norm_num [energy_to_charge_kwh, energy_needed_kwh, energy_start_kwh,
      energy_end_kwh, get_consumption, kmh_to_ms, RO, G, cla250, mainTrip]
  refine ⟨?_, ?_, ?_⟩
  · norm_num [get_consumption, kmh_to_ms, RO, G, cla250]
  · norm_num [get_consumption, kmh_to_ms, RO, G, cla250]
  · simp only [get_trip_duration, driving_time_h, charging_time_h, penalty, he, hnum]
    norm_num [mainTrip, cla250]

/-- Claim C8: the computation is a pure function of its arguments — two
invocations of the consumption, trip-duration and sweep functions with
identical inputs produce identical outputs. -/
theorem model_deterministic (car1 car2 : Car) (trip1 trip2 : Trip) (v1 v2 : ℚ)
    (d1 d2 p1 p2 s1 s2 e1 e2 : ℚ)
    (hcar : car1 = car2) (htrip : trip1 = trip2) (hv : v1 = v2)
    (hd : d1 = d2) (hp : p1 = p2) (hs : s1 = s2) (he : e1 = e2) :
    get_consumption car1 v1 = get_consumption car2 v2
    ∧ get_trip_duration car1 trip1 v1 = get_trip_duration car2 trip2 v2
    ∧ plot_speed_vs_duration car1 d1 p1 s1 e1
        = plot_speed_vs_duration car2 d2 p2 s2 e2 := by
  subst hcar htrip hv hd hp hs he
  exact ⟨rfl, rfl, rfl⟩

/-- Witness for `model_deterministic` at two copies of the cla250 scenario. -/
theorem model_deterministic_witness :
    cla250 = cla250
    ∧ mainTrip = mainTrip
    ∧ (120 : ℚ) = 120
    ∧ (1000 : ℚ) = 1000
    ∧ (0.2 : ℚ) = 0.2
    ∧ (1 : ℚ) = 1
    ∧ (0.05 : ℚ) = 0.05
    ∧ (get_consumption cla250 120 = get_consumption cla250 120
      ∧ get_trip_duration cla250 mainTrip 120 = get_trip_duration cla250 mainTrip 120
      ∧ plot_speed_vs_duration cla250 1000 0.2 1 0.05
          = plot_speed_vs_duration cla250 1000 0.2 1 0.05) :=
  ⟨rfl, rfl, rfl, rfl, rfl, rfl, rfl,
    model_deterministic cla250 cla250 mainTrip mainTrip 120 120
      1000 1000 0.2 0.2 1 1 0.05 0.05 rfl rfl rfl rfl rfl rfl rfl⟩

/-- Claim C9: with positive battery capacity and charging power, a
non-negative charging penalty and positive speed, the trip duration is at
least the pure driving time: the energy to charge is clamped at 0, so a
surplus of stored energy never shortens the trip below `distance / speed`. -/
theorem duration_at_least_driving_time (car : Car) (trip : Trip) (v_kmh : ℚ)
    (hv : 0 < v_kmh) (hcap : 0 < car.capacity) (hpow : 0 < car.charging_power)
    (hpen : 0 ≤ trip.charging_penalty_time_h) :
    trip.distance_km / v_kmh ≤ get_trip_duration car trip v_kmh := by
  have he : 0 ≤ energy_to_charge_kwh car trip v_kmh := le_max_left 0 _
  have hnum : (0 : ℤ) ≤ num_times_charging car trip v_kmh :=
    Int.ceil_nonneg (div_nonneg he hcap.le)
  have hpenalty : 0 ≤ penalty car trip v_kmh := by
    unfold penalty
    split
    · exact mul_nonneg hpen (by exact_mod_cast hnum)
    · exact le_refl 0
  have hct : 0 ≤ charging_time_h car trip v_kmh :=
    add_nonneg (div_nonneg he hpow.le) hpenalty
  unfold get_trip_duration driving_time_h
  linarith

/-- Witness for `duration_at_least_driving_time` at the cla250, the main trip
and 120 km/h. -/
theorem duration_at_least_driving_time_witness :
    (0 : ℚ) < 120
    ∧ (0 : ℚ) < cla250.capacity
    ∧ (0 : ℚ) < cla250.charging_power
    ∧ (0 : ℚ) ≤ mainTrip.charging_penalty_time_h
    ∧ mainTrip.distance_km / 120 ≤ get_trip_duration cla250 mainTrip 120 :=
  ⟨by norm_num, by norm_num [cla250], by norm_num [cla250],
    by norm_num [mainTrip],
    duration_at_least_driving_time cla250 mainTrip 120 (by norm_num)
      (by norm_num [cla250]) (by norm_num [cla250]) (by norm_num [mainTrip])⟩

/-- Claim C10: for a vehicle with non-negative physical parameters and
positive efficiency, the consumption curve has the closed form
`A + B * v ^ 2 + C / v` with non-negative coefficients depending only on the
vehicle; the constant term `A` is the speed-independent rolling-resistance
contribution `cr * g * weight * 100000 / 3600 / eta / 1000`. -/
theorem consumption_closed_form (car : Car) (v : ℚ) (hv : v ≠ 0)
    (hcr : 0 ≤ car.cr) (hw : 0 ≤ car.weight) (hcw : 0 ≤ car.cw)
    (ha : 0 ≤ car.area) (hp : 0 ≤ car.p_additional) (heta : 0 < car.eta) :
    get_consumption car v = consA car + consB car * v ^ 2 + consC car / v
    ∧ consA car = car.cr * G * car.weight * 100000 / 3600 / car.eta / 1000
    ∧ 0 ≤ consA car ∧ 0 ≤ consB car ∧ 0 ≤ consC car := by
  have hG : (0 : ℚ) ≤ G := by norm_num [G]
  have hRO : (0 : ℚ) ≤ RO := by norm_num [RO]
  refine ⟨?_, rfl, ?_, ?_, ?_⟩
  · unfold get_consumption consA consB consC
    field_simp
    ring
  · unfold consA
    positivity
  · unfold consB
    positivity
  · unfold consC
    positivity

/-- Witness for `consumption_closed_form` at the cla250 and 10 m/s. -/
theorem consumption_closed_form_witness :
    (10 : ℚ) ≠ 0
    ∧ (0 : ℚ) ≤ cla250.cr
    ∧ (0 : ℚ) ≤ cla250.weight
    ∧ (0 : ℚ) ≤ cla250.cw
    ∧ (0 : ℚ) ≤ cla250.area
    ∧ (0 : ℚ) ≤ cla250.p_additional
    ∧ (0 : ℚ) < cla250.eta
    ∧ (get_consumption cla250 10 = consA cla250 + consB cla250 * 10 ^ 2 + consC cla250 / 10
      ∧ consA cla250 = cla250.cr * G * cla250.weight * 100000 / 3600 / cla250.eta / 1000
      ∧ 0 ≤ consA cla250 ∧ 0 ≤ consB cla250 ∧ 0 ≤ consC cla250) :=
  ⟨by norm_num, by norm_num [cla250], by norm_num [cla250], by norm_num [cla250],
    by norm_num [cla250], by norm_num [cla250], by norm_num [cla250],
    consumption_closed_form cla250 10 (by norm_num) (by norm_num [cla250])
      (by norm_num [cla250]) (by norm_num [cla250]) (by norm_num [cla250])
      (by norm_num [cla250]) (by norm_num [cla250])⟩
